import Mathlib

/-!
Shallow embedding of the celebrity-recognition annotation script
(`src/main.py`).  The script resolves image paths under a fixed
`images` directory, sends each image to a remote recognition service,
and draws bounding boxes and name labels for every detected face whose
match confidence exceeds 90, saving the result next to the input.

Modelling choices:
* real-valued box fractions and confidences become rationals;
* the Python `int(...)` conversion becomes truncation toward zero;
* `pathlib.Path` values become lists of path components;
* the remote service, image opening, saving and font metrics are
  oracle functions collected in an `Env` record;
* observable behaviour is a list of `Event`s (console lines, draw
  operations, files written).
-/

namespace CelebRecog

/-- Python `int(x)` on a rational: truncation toward zero. -/
def pyInt (q : ℚ) : ℤ :=
  q.num.tdiv (q.den : ℤ)

/-- Normalized bounding box (`Left`, `Top`, `Width`, `Height` fields of
the recognition response), each a fraction of the image dimension. -/
structure BoundingBox where
  left : ℚ
  top : ℚ
  width : ℚ
  height : ℚ
deriving DecidableEq

/-- One detected face record (`CelebrityTypeDef`): the nested bounding
box, an optional `MatchConfidence` score and an optional `Name`. -/
structure Celebrity where
  box : BoundingBox
  matchConfidence : Option ℚ
  name : Option String
deriving DecidableEq

/-- Pixel-coordinate conversion performed for each face in
`draw_face_boxes` (lines 58-61 of `main.py`):
`left = int(box.Left * width)`, `top = int(box.Top * height)`,
`right = int((box.Left + box.Width) * width)`,
`bottom = int((box.Top + box.Height) * height)`. -/
def pixelBox (w h : ℤ) (b : BoundingBox) : ℤ × ℤ × ℤ × ℤ :=
  (pyInt (b.left * (w : ℚ)),
   pyInt (b.top * (h : ℚ)),
   pyInt ((b.left + b.width) * (w : ℚ)),
   pyInt ((b.top + b.height) * (h : ℚ)))

/-- A single PIL drawing operation issued by `draw_face_boxes`. -/
inductive DrawOp where
  | rectangleOutline (coords : ℤ × ℤ × ℤ × ℤ) (color : String) (lineWidth : ℤ)
  | rectangleFill (coords : ℤ × ℤ × ℤ × ℤ) (color : String)
  | text (pos : ℤ × ℤ) (content : String) (fill : String)
deriving DecidableEq

/-- Font-metric oracle: the `draw.textbbox(position, name, font=font)`
call, which depends on the loaded font. -/
abbrev TextBBox := ℤ × ℤ → String → ℤ × ℤ × ℤ × ℤ

/-- Body of the per-face loop in `draw_face_boxes` (lines 55-70):
convert the box, then, if `face.get("MatchConfidence", 0) > 90`, draw a
red 3-pixel outlined rectangle, a red filled label background and the
name (default "Desconhecido") in white at `(left, top - 20)`. -/
def drawFace (tb : TextBBox) (w h : ℤ) (face : Celebrity) : List DrawOp :=
  let p := pixelBox w h face.box
  let confidence := face.matchConfidence.getD 0
  if confidence > 90 then
    let name := face.name.getD "Desconhecido"
    let text_position := (p.1, p.2.1 - 20)
    [DrawOp.rectangleOutline p "red" 3,
     DrawOp.rectangleFill (tb text_position name) "red",
     DrawOp.text text_position name "white"]
  else []

/-- All drawing operations issued by one `draw_face_boxes` call, in
loop order. -/
def drawFaceBoxesOps (tb : TextBBox) (w h : ℤ) (faces : List Celebrity) :
    List DrawOp :=
  faces.flatMap (drawFace tb w h)

/-- Recognizer of the outlined-rectangle operation. -/
def isOutlineRect : DrawOp → Bool
  | DrawOp.rectangleOutline _ _ _ => true
  | _ => false

/-- The strings rendered by `draw.text` operations, in order. -/
def labelTexts : List DrawOp → List String
  | [] => []
  | DrawOp.text _ s _ :: ops => s :: labelTexts ops
  | _ :: ops => labelTexts ops

/-- The positions of `draw.text` operations, in order. -/
def textPositions : List DrawOp → List (ℤ × ℤ)
  | [] => []
  | DrawOp.text pos _ _ :: ops => pos :: textPositions ops
  | _ :: ops => textPositions ops

/-- A filesystem path as its list of components (`pathlib.Path`). -/
abbrev PyPath := List String

/-- Rendering of a path as Python prints it on POSIX. -/
def pathStr (p : PyPath) : String :=
  String.intercalate "/" p

/-- `get_image_path` (lines 14-19): join the directory containing the
script with `images` and the file name. `base` stands for
`Path(__file__).parent`. -/
def get_image_path (base : PyPath) (file_name : String) : PyPath :=
  base ++ ["images", file_name]

/-- Index of the last occurrence of a character in a list, as
`str.rfind` computes it. -/
def rfindChar (c : Char) : List Char → Option Nat
  | [] => none
  | x :: xs =>
    match rfindChar c xs with
    | some i => some (i + 1)
    | none => if x = c then some 0 else none

/-- `pathlib` stem computation on a file name: drop the final
dot-suffix when the last dot is neither the first nor the last
character. -/
def stemOfName (name : String) : String :=
  let cs := name.data
  match rfindChar (Char.ofNat 46) cs with
  | some i => if 0 < i ∧ i < cs.length - 1 then String.mk (cs.take i) else name
  | none => name

/-- Last component of a path (`Path.name`), empty for the empty path. -/
def pathName (p : PyPath) : String :=
  (p.getLast?).getD ""

/-- `Path(photo_path).stem`: stem of the last component. -/
def pathStem (p : PyPath) : String :=
  stemOfName (pathName p)

/-- Output path construction of line 91:
`get_image_path(f-string of Path(photo_path).stem and -resultado.jpg)`. -/
def output_path_for (base : PyPath) (image_file : String) : PyPath :=
  get_image_path base
    (pathStem (get_image_path base image_file) ++ "-resultado.jpg")

/-- Externally observable events of one run. -/
inductive Event where
  | log (msg : String)
  | draw (op : DrawOp)
  | fileSaved (path : PyPath)
deriving DecidableEq

/-- Oracles for everything outside the script: the remote recognition
call, `Image.open` (yielding the image size), `image.save`, and the
font metrics. Each `Except` failure stands for a raised exception. -/
structure Env where
  recognize : PyPath → Except String (List Celebrity)
  openImage : PyPath → Except String (ℤ × ℤ)
  save : PyPath → Except String Unit
  textBBox : TextBBox

/-- `draw_face_boxes` (lines 37-74): open the image, draw every
qualifying face, save to `output_path` unconditionally, and print a
confirmation line. Any failure propagates as an exception. -/
def draw_face_boxes (env : Env) (image_path output_path : PyPath)
    (faces : List Celebrity) : Except String (List Event) :=
  match env.openImage image_path with
  | Except.error e => Except.error e
  | Except.ok wh =>
    let ops := drawFaceBoxesOps env.textBBox wh.1 wh.2 faces
    match env.save output_path with
    | Except.error e => Except.error e
    | Except.ok _ =>
      Except.ok (ops.map Event.draw ++
        [Event.fileSaved output_path,
         Event.log ("Imagem processada e salva em: " ++ pathStr output_path)])

/-- Body of one iteration of the `__main__` loop (lines 82-92), before
exception handling: resolve the path, call the recognizer, skip (with a
log line) when no celebrity was detected, otherwise derive the output
path and run `draw_face_boxes`. -/
def processFileBody (env : Env) (base : PyPath) (image_file : String) :
    Except String (List Event) :=
  let photo_path := get_image_path base image_file
  match env.recognize photo_path with
  | Except.error e => Except.error e
  | Except.ok celebrity_faces =>
    if celebrity_faces.isEmpty then
      Except.ok
        [Event.log ("Nenhuma celebridade detectada em: " ++ pathStr photo_path)]
    else
      draw_face_boxes env photo_path (output_path_for base image_file)
        celebrity_faces

/-- One iteration of the `__main__` loop with its `try/except`
(lines 80-95): any exception is caught and turned into a single error
line naming the file and the exception message. -/
def processFile (env : Env) (base : PyPath) (image_file : String) : List Event :=
  match processFileBody env base image_file with
  | Except.ok evs => evs
  | Except.error e =>
      [Event.log ("Erro ao processar a imagem " ++ image_file ++ ": " ++ e)]

/-- The hardcoded input list of line 79. -/
def image_files : List String :=
  ["capr.jpeg", "riana.jpeg", "will.jpg", "ss.jpg", "pipoquinha.jpg",
   "Bonne.jpg", "ior.jpg", "jojo.jpg", "Davi.jpg", "sub.jpg"]

/-- The whole `__main__` loop over a list of file names. -/
def mainLoop (env : Env) (base : PyPath) (files : List String) : List Event :=
  files.flatMap (processFile env base)

/-! Concrete fixtures used to instantiate the general statements. -/

/-- A concrete font-metric oracle for instances. -/
def tb0 : TextBBox := fun p s => (p.1, p.2, p.1 + 10 * (s.length : ℤ), p.2 + 20)

/-- The worked example box of the specification. -/
def boxEx : BoundingBox := ⟨1/10, 2/10, 3/10, 4/10⟩

/-- A face above the confidence threshold, with a name. -/
def faceHigh : Celebrity := ⟨boxEx, some 99, some "Alicia"⟩

/-- A face exactly at the threshold. -/
def faceLow : Celebrity := ⟨boxEx, some 90, some "Bruno"⟩

/-- A face whose record has no confidence field. -/
def faceNoConf : Celebrity := ⟨boxEx, none, some "Clara"⟩

/-- A face above the threshold whose record has no name field. -/
def faceNoName : Celebrity := ⟨boxEx, some 99, none⟩

/-- A face above the threshold whose box top is close to the image top. -/
def faceTop : Celebrity := ⟨⟨1/10, 1/100, 3/10, 4/10⟩, some 99, some "Dani"⟩

/-- An environment whose calls all succeed, recognizing one face. -/
def envOk : Env where
  recognize := fun _ => Except.ok [faceHigh]
  openImage := fun _ => Except.ok (1000, 500)
  save := fun _ => Except.ok ()
  textBBox := tb0

/-- An environment whose recognizer detects nothing. -/
def envEmpty : Env :=
  { envOk with recognize := fun _ => Except.ok [] }

/-- An environment whose recognizer raises an exception. -/
def envFail : Env :=
  { envOk with recognize := fun _ => Except.error "arquivo nao encontrado" }

/-- An environment recognizing only a face at the threshold. -/
def envLow : Env :=
  { envOk with recognize := fun _ => Except.ok [faceLow] }

/-! Claim theorems. -/

/-- C1: for every detected entity the Annotator converts the normalized
bounding box to pixels by left = int(Left x width), top = int(Top x height),
right = int((Left + Width) x width), bottom = int((Top + Height) x height),
with int truncating toward zero; on a 1000 x 500 image the box
(Left 0.1, Top 0.2, Width 0.3, Height 0.4) yields (100,100)-(400,300). -/
theorem C1_pixel_conversion (w h : ℤ) (b : BoundingBox) :
    pixelBox w h b =
      (pyInt (b.left * (w : ℚ)), pyInt (b.top * (h : ℚ)),
       pyInt ((b.left + b.width) * (w : ℚ)),
       pyInt ((b.top + b.height) * (h : ℚ))) ∧
    pyInt (7 / 2) = 3 ∧ pyInt (-7 / 2) = -3 ∧
    pixelBox 1000 500 ⟨1/10, 2/10, 3/10, 4/10⟩ = (100, 100, 400, 300) := by
  refine ⟨rfl, ?_, ?_, ?_⟩ <;> norm_num [pixelBox, pyInt] <;> decide

/-- C2: an entity is drawn iff its confidence is strictly greater than 90;
a drawn entity yields exactly one outlined rectangle and one label text,
and an entity at or below the threshold yields no drawing operation. -/
theorem C2_confidence_threshold (tb : TextBBox) (w h : ℤ) (face : Celebrity) :
    (drawFace tb w h face ≠ [] ↔ 90 < face.matchConfidence.getD 0) ∧
    (90 < face.matchConfidence.getD 0 →
      ((drawFace tb w h face).filter isOutlineRect).length = 1 ∧
      (labelTexts (drawFace tb w h face)).length = 1) ∧
    (face.matchConfidence.getD 0 ≤ 90 → drawFace tb w h face = []) := by
  by_cases hc : (90 : ℚ) < face.matchConfidence.getD 0
  · refine ⟨?_, fun _ => ?_, fun hle => absurd hc (not_lt.mpr hle)⟩
    · simp [drawFace, hc]
    · constructor <;> simp [drawFace, hc, isOutlineRect, labelTexts]
  · refine ⟨?_, fun hgt => absurd hgt hc, fun _ => ?_⟩ <;> simp [drawFace, hc]

/-- C2 witness: the hypotheses of the threshold theorem hold at a concrete
face with confidence 99. -/
theorem C2_confidence_threshold_witness :
    90 < faceHigh.matchConfidence.getD 0 ∧
    ((drawFace tb0 1000 500 faceHigh).filter isOutlineRect).length = 1 ∧
    (labelTexts (drawFace tb0 1000 500 faceHigh)).length = 1 := by
  have h90 : (90 : ℚ) < faceHigh.matchConfidence.getD 0 := by
    norm_num [faceHigh]
  exact ⟨h90, (C2_confidence_threshold tb0 1000 500 faceHigh).2.1 h90⟩

/-- C5: the output path joins the same fixed images directory with the
input stem followed by -resultado.jpg; capr.jpeg maps to
capr-resultado.jpg. -/
theorem C5_output_name (base : PyPath) (image_file : String) :
    output_path_for base image_file =
      base ++ ["images", stemOfName image_file ++ "-resultado.jpg"] ∧
    output_path_for base "capr.jpeg" =
      base ++ ["images", "capr-resultado.jpg"] := by
  have key : ∀ f : String, pathStem (get_image_path base f) = stemOfName f := by
    intro f
    have hsplit : base ++ ["images", f] = (base ++ ["images"]) ++ [f] := by
      simp
    rw [pathStem, pathName, get_image_path, hsplit, List.getLast?_concat]
    rfl
  refine ⟨?_, ?_⟩
  · rw [output_path_for, key, get_image_path]
  · rw [output_path_for, key, get_image_path]
    have : stemOfName "capr.jpeg" = "capr" := by decide
    rw [this]
    rfl

/-- C7: the coordinate computation is deterministic: two runs on the same
dimensions and entity list produce the same drawing operations. -/
theorem C7_deterministic (tb : TextBBox) (w h : ℤ) (faces : List Celebrity)
    (r1 r2 : List DrawOp)
    (h1 : r1 = drawFaceBoxesOps tb w h faces)
    (h2 : r2 = drawFaceBoxesOps tb w h faces) : r1 = r2 :=
  h1.trans h2.symm

/-- C7 witness: determinism instantiated at a concrete run. -/
theorem C7_deterministic_witness :
    drawFaceBoxesOps tb0 1000 500 [faceHigh] =
      drawFaceBoxesOps tb0 1000 500 [faceHigh] :=
  C7_deterministic tb0 1000 500 [faceHigh] _ _ rfl rfl

/-- C9: a face record without a confidence field is given confidence 0 by
the lookup default and is therefore not drawn. -/
theorem C9_missing_confidence (tb : TextBBox) (w h : ℤ) (face : Celebrity)
    (hnone : face.matchConfidence = none) :
    face.matchConfidence.getD 0 = 0 ∧ drawFace tb w h face = [] := by
  refine ⟨by rw [hnone]; rfl, ?_⟩
  norm_num [drawFace, hnone]

/-- C9 witness: the confidence-free face is skipped. -/
theorem C9_missing_confidence_witness :
    faceNoConf.matchConfidence.getD 0 = 0 ∧
    drawFace tb0 1000 500 faceNoConf = [] :=
  C9_missing_confidence tb0 1000 500 faceNoConf rfl

/-- C3: when the recognizer returns no entity for a file, that iteration
produces only the skip log line, hence no saved file and no drawing, and
the loop continues with the remaining files. -/
theorem C3_empty_skips (env : Env) (base : PyPath) (image_file : String)
    (h : env.recognize (get_image_path base image_file) = Except.ok []) :
    processFile env base image_file =
      [Event.log ("Nenhuma celebridade detectada em: " ++
        pathStr (get_image_path base image_file))] ∧
    (∀ p : PyPath, Event.fileSaved p ∉ processFile env base image_file) ∧
    (∀ op : DrawOp, Event.draw op ∉ processFile env base image_file) ∧
    ∀ rest : List String, mainLoop env base (image_file :: rest) =
      processFile env base image_file ++ mainLoop env base rest := by
  have hbody : processFileBody env base image_file =
      Except.ok [Event.log ("Nenhuma celebridade detectada em: " ++
        pathStr (get_image_path base image_file))] := by
    simp [processFileBody, h]
  have hproc : processFile env base image_file =
      [Event.log ("Nenhuma celebridade detectada em: " ++
        pathStr (get_image_path base image_file))] := by
    simp [processFile, hbody]
  refine ⟨hproc, ?_, ?_, ?_⟩
  · intro p; rw [hproc]; simp
  · intro op; rw [hproc]; simp
  · intro rest; simp [mainLoop]

/-- C3 witness: a concrete environment with an empty response produces
exactly the skip log. -/
theorem C3_empty_skips_witness :
    processFile envEmpty ["app"] "capr.jpeg" =
      [Event.log "Nenhuma celebridade detectada em: app/images/capr.jpeg"] := by
  have h := (C3_empty_skips envEmpty ["app"] "capr.jpeg" rfl).1
  rw [h]
  rfl

/-- C4: any exception raised inside one iteration body is caught, turned
into a single error line naming the file and the message, and the batch
continues with the remaining files. -/
theorem C4_error_caught (env : Env) (base : PyPath) (image_file e : String)
    (h : processFileBody env base image_file = Except.error e) :
    processFile env base image_file =
      [Event.log ("Erro ao processar a imagem " ++ image_file ++ ": " ++ e)] ∧
    ∀ rest : List String, mainLoop env base (image_file :: rest) =
      Event.log ("Erro ao processar a imagem " ++ image_file ++ ": " ++ e) ::
        mainLoop env base rest := by
  have hproc : processFile env base image_file =
      [Event.log ("Erro ao processar a imagem " ++ image_file ++ ": " ++ e)] := by
    simp [processFile, h]
  refine ⟨hproc, ?_⟩
  intro rest
  simp [mainLoop, hproc]

/-- C4 witness: a concrete failing recognizer yields the error line and the
loop moves on. -/
theorem C4_error_caught_witness :
    processFile envFail ["app"] "capr.jpeg" =
      [Event.log "Erro ao processar a imagem capr.jpeg: arquivo nao encontrado"] := by
  have h := (C4_error_caught envFail ["app"] "capr.jpeg"
    "arquivo nao encontrado" rfl).1
  rw [h]
  rfl

/-- C6 counterexample: for a drawn face whose record lacks a name, the
rendered label text is the literal "Desconhecido", not "Unknown" as the
claim states. -/
theorem C6_label_default_counterexample :
    labelTexts (drawFace tb0 1000 500 faceNoName) = ["Desconhecido"] ∧
    "Desconhecido" ≠ "Unknown" := by
  constructor
  · norm_num [drawFace, faceNoName, labelTexts]
  · decide

/-- C6 amended: for every drawn face the label text is the face name
defaulting to "Desconhecido" (Portuguese for unknown) when absent, and the
label is positioned at (left, top - 20). -/
theorem C6_label_text_position (tb : TextBBox) (w h : ℤ) (face : Celebrity)
    (hc : 90 < face.matchConfidence.getD 0) :
    labelTexts (drawFace tb w h face) = [face.name.getD "Desconhecido"] ∧
    textPositions (drawFace tb w h face) =
      [((pixelBox w h face.box).1, (pixelBox w h face.box).2.1 - 20)] := by
  constructor <;> simp [drawFace, hc, labelTexts, textPositions]

/-- C6 amended witness: the named high-confidence face is labelled with its
name at (100, 80) on the 1000 x 500 example image. -/
theorem C6_label_text_position_witness :
    labelTexts (drawFace tb0 1000 500 faceHigh) = ["Alicia"] ∧
    textPositions (drawFace tb0 1000 500 faceHigh) = [(100, 80)] := by
  have h := C6_label_text_position tb0 1000 500 faceHigh (by norm_num [faceHigh])
  have hpix : pixelBox 1000 500 faceHigh.box = (100, 100, 400, 300) := by
    norm_num [faceHigh, boxEx, pixelBox, pyInt]
  refine ⟨h.1.trans ?_, h.2.trans ?_⟩
  · rfl
  · rw [hpix]
    decide

/-- C8: once the Annotator runs with a readable image and a writable
output, the save happens even when the entity list is non-empty but no
entity passes the threshold: the result is the saved file and the
confirmation line, with no drawing operation. -/
theorem C8_save_unconditional (env : Env) (ip op : PyPath)
    (faces : List Celebrity) (w h : ℤ)
    (hopen : env.openImage ip = Except.ok (w, h))
    (hsave : env.save op = Except.ok ())
    (hne : faces ≠ [])
    (hall : ∀ f ∈ faces, f.matchConfidence.getD 0 ≤ 90) :
    draw_face_boxes env ip op faces =
      Except.ok [Event.fileSaved op,
        Event.log ("Imagem processada e salva em: " ++ pathStr op)] := by
  have hops : drawFaceBoxesOps env.textBBox w h faces = [] := by
    rw [drawFaceBoxesOps, List.flatMap_eq_nil_iff]
    intro f hf
    have hle := hall f hf
    norm_num [drawFace, not_lt.mpr hle]
  simp [draw_face_boxes, hopen, hsave, hops]

/-- C8 witness: a singleton list at the threshold still produces a saved
output file. -/
theorem C8_save_unconditional_witness :
    draw_face_boxes envOk ["app", "images", "capr.jpeg"]
      ["app", "images", "capr-resultado.jpg"] [faceLow] =
      Except.ok [Event.fileSaved ["app", "images", "capr-resultado.jpg"],
        Event.log
          "Imagem processada e salva em: app/images/capr-resultado.jpg"] := by
  have h := C8_save_unconditional envOk ["app", "images", "capr.jpeg"]
    ["app", "images", "capr-resultado.jpg"] [faceLow] 1000 500 rfl rfl
    (by simp) (by intro f hf; simp at hf; rw [hf]; norm_num [faceLow])
  rw [h]
  rfl

/-- C10: the pixel conversion applies the same formula to any fractions
with no clamping, so coordinates can fall outside the image (witnessed by
a box with Left -0.5 and Top 1.5 on a 100 x 100 image), and a drawn face
whose top lands above 20 pixels gets a label position with a negative
vertical coordinate. -/
theorem C10_no_clamping (w h : ℤ) (b : BoundingBox) (tb : TextBBox)
    (face : Celebrity) :
    pixelBox w h b =
      (pyInt (b.left * (w : ℚ)), pyInt (b.top * (h : ℚ)),
       pyInt ((b.left + b.width) * (w : ℚ)),
       pyInt ((b.top + b.height) * (h : ℚ))) ∧
    (pixelBox 100 100 ⟨-1/2, 3/2, 1, 1⟩ = (-50, 150, 50, 250) ∧
      (-50 : ℤ) < 0 ∧ (100 : ℤ) < 150) ∧
    (90 < face.matchConfidence.getD 0 →
      (pixelBox w h face.box).2.1 < 20 →
      textPositions (drawFace tb w h face) =
        [((pixelBox w h face.box).1, (pixelBox w h face.box).2.1 - 20)] ∧
      (pixelBox w h face.box).2.1 - 20 < 0) := by
  refine ⟨rfl, ⟨?_, by decide, by decide⟩, fun hc ht => ⟨?_, by omega⟩⟩
  · norm_num [pixelBox, pyInt]
  · simp [drawFace, hc, textPositions]

/-- C10 witness: a face near the image top is drawn with label position
(100, -15), above the image. -/
theorem C10_no_clamping_witness :
    textPositions (drawFace tb0 1000 500 faceTop) = [(100, -15)] ∧
    (-15 : ℤ) < 0 := by
  have hpix : pixelBox 1000 500 faceTop.box = (100, 5, 400, 205) := by
    norm_num [faceTop, pixelBox, pyInt]
  have h := (C10_no_clamping 1000 500 boxEx tb0 faceTop).2.2
    (by norm_num [faceTop]) (by rw [hpix]; decide)
  refine ⟨h.1.trans ?_, by decide⟩
  rw [hpix]
  decide

end CelebRecog
